import Mathlib

/-!
Verification of the AlertPrioritization risk-scoring pipeline
(`alert_prioritization.py`) against its natural-language specification.

The embedding mirrors the Python source:
* a raw CSV row becomes `RawAlert`; the `timestamp` field holds the result of
  timestamp parsing (`none` = unparseable string) and `alert_count` holds the
  optional `alert_count` column (`none` = column absent);
* `pd.to_datetime` over the whole column becomes `parseTimestamps`;
* the `frequency_dict` built over `(target_ip, time_window_start)` keys becomes
  `frequency_dict`;
* `exit(1)` in an exception handler becomes `Except.error 1` (the run aborts
  with status 1 and produces no scored output);
* numeric values are rationals, timestamps are integers (seconds).
-/

/-- The `frequency_threshold` object of the JSON config: `time_window` is the
minute count parsed from the `"<N>m"` string, `count` is the trigger minimum. -/
structure FrequencyThreshold where
  time_window_minutes : ℤ
  count : ℚ
  deriving DecidableEq

/-- The validated configuration object (`load_config` requires exactly these
keys). Maps are association lists, as the scorer only ever calls `.get`. -/
structure RiskConfig where
  alert_type_weights : List (String × ℚ)
  frequency_threshold : FrequencyThreshold
  role_weights : List (String × ℚ)
  ip_blacklist : List String
  severity_weight : ℚ
  frequency_weight : ℚ
  role_weight : ℚ
  deriving DecidableEq

/-- One raw input row. `timestamp` is the parse result of the timestamp string
(`none` when `pd.to_datetime` would raise); `alert_count` is `none` when the
optional `alert_count` column is absent from the CSV. -/
structure RawAlert where
  alert_id : String
  timestamp : Option ℤ
  source_ip : String
  target_ip : String
  severity : ℚ
  user_role : String
  alert_type : String
  alert_count : Option ℚ
  deriving DecidableEq

/-- A row after `precompute_alert_frequency`: timestamp parsed, the
`time_window_start` and `precomputed_frequency` columns added. -/
structure ParsedAlert where
  alert_id : String
  timestamp : ℤ
  source_ip : String
  target_ip : String
  severity : ℚ
  user_role : String
  alert_type : String
  alert_count : ℚ
  time_window_start : ℤ
  precomputed_frequency : ℚ
  deriving DecidableEq

/-- One scored output record, as appended by `process_chunk`. -/
structure ScoredAlert where
  alert_id : String
  risk_score : ℚ
  priority : String
  deriving DecidableEq

/-- `dict.get(key, default)`: first value bound to `key` in an association
list, or the default 0 (both `role_weights.get(..., 0)` and
`alert_type_weights.get(..., 0)` default to 0 in the source). -/
def dictGet (m : List (String × ℚ)) (key : String) : ℚ :=
  ((m.lookup key).getD 0)

/-- `pd.to_datetime(alert_df['timestamp'])`: parses every row's timestamp,
failing (raising, in the source) as soon as any row is unparseable. -/
def parseTimestamps : List RawAlert → Option (List (RawAlert × ℤ))
  | [] => some []
  | r :: rs =>
    match r.timestamp, parseTimestamps rs with
    | some t, some l => some ((r, t) :: l)
    | _, _ => none

/-- Reading `row['alert_count']` for every row of the frequency loop, failing
(KeyError, in the source) as soon as a row lacks the column. -/
def readCounts : List (RawAlert × ℤ) → Option (List (RawAlert × ℤ × ℚ))
  | [] => some []
  | p :: ps =>
    match p.1.alert_count, readCounts ps with
    | some c, some l => some ((p.1, p.2, c) :: l)
    | _, _ => none

/-- `timestamp - timedelta(minutes=int(config['frequency_threshold']['time_window'][:-1]))`,
with timestamps in seconds. -/
def time_window_start (config : RiskConfig) (t : ℤ) : ℤ :=
  t - 60 * config.frequency_threshold.time_window_minutes

/-- The `frequency_dict` of the source at a given key: the sum of
`row['alert_count']` over all rows whose `(target_ip, time_window_start)`
equals the key. -/
def frequency_dict (config : RiskConfig) (rows : List (RawAlert × ℤ × ℚ))
    (key : String × ℤ) : ℚ :=
  (rows.filter fun q =>
      decide (q.1.target_ip = key.1 ∧ time_window_start config q.2.1 = key.2)).foldl
    (fun acc q => acc + q.2.2) 0

/-- Builds one `ParsedAlert` row: `precomputed_frequency` is
`frequency_dict.get((row['target_ip'], row['time_window_start']), 0)`. -/
def mkParsed (config : RiskConfig) (rows : List (RawAlert × ℤ × ℚ))
    (q : RawAlert × ℤ × ℚ) : ParsedAlert :=
  { alert_id := q.1.alert_id
    timestamp := q.2.1
    source_ip := q.1.source_ip
    target_ip := q.1.target_ip
    severity := q.1.severity
    user_role := q.1.user_role
    alert_type := q.1.alert_type
    alert_count := q.2.2
    time_window_start := time_window_start config q.2.1
    precomputed_frequency :=
      frequency_dict config rows (q.1.target_ip, time_window_start config q.2.1) }

/-- `precompute_alert_frequency(alert_df, config)`: parse timestamps, derive
`time_window_start`, accumulate `frequency_dict` over
`(target_ip, time_window_start)` keys from `alert_count`, and attach
`precomputed_frequency` to every row. Each `except` handler in the source
prints and calls `exit(1)`, modelled as `Except.error 1`. -/
def precompute_alert_frequency (alert_df : List RawAlert) (config : RiskConfig) :
    Except ℤ (List ParsedAlert) :=
  match parseTimestamps alert_df with
  | none => Except.error 1
  | some withTs =>
    match readCounts withTs with
    | none => Except.error 1
    | some rows => Except.ok (rows.map (mkParsed config rows))

/-- `alert_type_weight = config['alert_type_weights'].get(alert['alert_type'], 0)`. -/
def alert_type_score (alert : ParsedAlert) (config : RiskConfig) : ℚ :=
  dictGet config.alert_type_weights alert.alert_type

/-- `severity_weight = alert['severity'] * config['severity_weight']`. -/
def severity_score (alert : ParsedAlert) (config : RiskConfig) : ℚ :=
  alert.severity * config.severity_weight

/-- `blacklist_weight = 10 if alert['source_ip'] in config['ip_blacklist'] else 0`. -/
def blacklist_weight (alert : ParsedAlert) (config : RiskConfig) : ℚ :=
  if alert.source_ip ∈ config.ip_blacklist then 10 else 0

/-- `frequency_weight = 1 if alert['precomputed_frequency'] >= config['frequency_threshold']['count'] else 0`. -/
def frequency_flag (alert : ParsedAlert) (config : RiskConfig) : ℚ :=
  if config.frequency_threshold.count ≤ alert.precomputed_frequency then 1 else 0

/-- `role_weight = config['role_weights'].get(alert['user_role'], 0)`. -/
def role_score (alert : ParsedAlert) (config : RiskConfig) : ℚ :=
  dictGet config.role_weights alert.user_role

/-- `calculate_risk_score(alert, config)`: the sum of the five terms computed
in the source. Note the source neither multiplies the role lookup by
`config['role_weight']` nor the frequency term by `config['frequency_weight']`,
and performs no rounding. -/
def calculate_risk_score (alert : ParsedAlert) (config : RiskConfig) : ℚ :=
  alert_type_score alert config + severity_score alert config +
    blacklist_weight alert config + frequency_flag alert config +
    role_score alert config

/-- `classify_priority(risk_score)`. -/
def classify_priority (risk_score : ℚ) : String :=
  if risk_score > 15 then "High"
  else if risk_score > 8 then "Medium"
  else "Low"

/-- `process_chunk(chunk, config)`: precompute frequencies over the chunk
alone, then score and classify each row in order. -/
def process_chunk (chunk : List RawAlert) (config : RiskConfig) :
    Except ℤ (List ScoredAlert) :=
  match precompute_alert_frequency chunk config with
  | Except.error e => Except.error e
  | Except.ok alert_df =>
    Except.ok (alert_df.map fun alert =>
      { alert_id := alert.alert_id
        risk_score := calculate_risk_score alert config
        priority := classify_priority (calculate_risk_score alert config) })

/-- `process_alerts`: the dataset is consumed as a list of chunks (the source
reads the CSV with `chunksize=10000`); each chunk is handed to `process_chunk`
in order via the blocking `pool.apply`, and the chunk results are concatenated
in dispatch order. An `exit(1)` anywhere aborts the run. -/
def process_alerts (chunks : List (List RawAlert)) (config : RiskConfig) :
    Except ℤ (List ScoredAlert) :=
  match chunks with
  | [] => Except.ok []
  | c :: rest =>
    match process_chunk c config with
    | Except.error e => Except.error e
    | Except.ok r =>
      match process_alerts rest config with
      | Except.error e => Except.error e
      | Except.ok rs => Except.ok (r ++ rs)

/-- Rounding to 2 decimal places, used only by the spec's formula. -/
def round2 (q : ℚ) : ℚ := (round (q * 100) : ℤ) / 100

/-- The risk-score formula as the spec writes it (spec §4.2), for comparison
with `calculate_risk_score`: `recent_count` is the spec's global window count. -/
def risk_score_spec (alert : ParsedAlert) (config : RiskConfig)
    (recent_count : ℚ) : ℚ :=
  round2 (alert.severity * config.severity_weight +
    (if config.frequency_threshold.count ≤ recent_count
      then recent_count * config.frequency_weight else 0) +
    dictGet config.role_weights alert.user_role * config.role_weight +
    (if alert.source_ip ∈ config.ip_blacklist then 10 else 0) +
    dictGet config.alert_type_weights alert.alert_type)

/-- The Correlation Index count as the spec defines it (spec §4.1): the number
of alerts sharing the correlation key (`source_ip`) whose timestamp lies in the
trailing half-open window, the alert itself included. Alerts are given as
(source_ip, timestamp) pairs, the window in seconds. -/
def recent_count_spec (alerts : List (String × ℤ)) (a : String × ℤ)
    (window : ℤ) : ℕ :=
  (alerts.filter fun b =>
    decide (b.1 = a.1 ∧ a.2 - window < b.2 ∧ b.2 ≤ a.2)).length

/-- The alert of the spec's concrete scenario (§8), as a row of the frequency
pre-pass output: `recent_count = 1`, so `precomputed_frequency = 1` (its own
`alert_count`), below the threshold of 2. -/
def scenAlert : ParsedAlert :=
  { alert_id := "a1", timestamp := 0, source_ip := "1.2.3.4", target_ip := "t",
    severity := 5, user_role := "admin", alert_type := "", alert_count := 1,
    time_window_start := -600, precomputed_frequency := 1 }

/-- The config of the spec's concrete scenario (§8), with the empty
`alert_type_weights` map that `load_config` requires. -/
def scenConfig : RiskConfig :=
  { alert_type_weights := []
    frequency_threshold := { time_window_minutes := 10, count := 2 }
    role_weights := [("admin", 3)]
    ip_blacklist := ["1.2.3.4"]
    severity_weight := 1, frequency_weight := 2, role_weight := 2 }

/-- A valid input row: parses fine, `alert_count` column present with value 1. -/
def rowA : RawAlert :=
  { alert_id := "a", timestamp := some 0, source_ip := "S", target_ip := "T",
    severity := 1, user_role := "u", alert_type := "", alert_count := some 1 }

/-- A second row identical to `rowA` except for its id: same `target_ip`, same
timestamp, so the two share a `(target_ip, time_window_start)` key. -/
def rowB : RawAlert := { rowA with alert_id := "b" }

/-- A minimal valid config: frequency threshold count 2 over a 10-minute
window, no blacklist, no role or alert-type weights. -/
def cfg2 : RiskConfig :=
  { alert_type_weights := []
    frequency_threshold := { time_window_minutes := 10, count := 2 }
    role_weights := [], ip_blacklist := []
    severity_weight := 1, frequency_weight := 2, role_weight := 2 }

/-- First of two alerts from the same source 1 minute apart (spec §8 scenario). -/
def row1 : RawAlert := { rowA with alert_id := "r1" }

/-- Second of the pair: same `source_ip` and `target_ip`, timestamp 60 seconds
(1 minute) later. -/
def row2 : RawAlert := { rowA with alert_id := "r2", timestamp := some 60 }

/-- A row whose timestamp string does not parse. -/
def badRow : RawAlert := { rowA with alert_id := "bad", timestamp := none }

/-- A row from a dataset that lacks the optional `alert_count` column. -/
def noCountRow : RawAlert := { rowA with alert_count := none }

/-- A config with a negative `severity_weight` (the config schema constrains
the weights to be numeric, not to be non-negative). -/
def cfgNeg : RiskConfig := { cfg2 with severity_weight := -1 }

/-- C1: at the spec's concrete scenario (severity 5, role admin with weight 3,
blacklisted source, recent count 1 below threshold 2), the source's
`calculate_risk_score` returns 18 — not the 21 the claim (and the repository's
own test for this exact scenario) demands: the source never multiplies the
role lookup by `role_weight` and never rounds. The priority is still High.
The spec's formula `risk_score_spec` does give 21. -/
theorem c1_scenario_score_is_18_not_21 :
    calculate_risk_score scenAlert scenConfig = 18 ∧
    risk_score_spec scenAlert scenConfig 1 = 21 ∧
    calculate_risk_score scenAlert scenConfig ≠ risk_score_spec scenAlert scenConfig 1 ∧
    classify_priority (calculate_risk_score scenAlert scenConfig) = "High" := by
  refine ⟨?_, ?_, ?_, ?_⟩ <;>
    norm_num [calculate_risk_score, alert_type_score, severity_score, blacklist_weight,
      frequency_flag, role_score, dictGet, risk_score_spec, round2, classify_priority,
      scenAlert, scenConfig]

/-- C2: chunking is not invariant. The two-row dataset `[rowA, rowB]` (same
`target_ip`, same timestamp, `alert_count` 1 each, threshold count 2) scored as
one chunk gives both rows `precomputed_frequency = 2` and risk score 2, while
scored as two single-row chunks gives both `precomputed_frequency = 1` and risk
score 1: the source recomputes the frequency dictionary per chunk inside
`process_chunk`, so the per-alert results differ. -/
theorem c2_chunking_changes_scores :
    process_alerts [[rowA, rowB]] cfg2 =
      Except.ok [⟨"a", 2, "Low"⟩, ⟨"b", 2, "Low"⟩] ∧
    process_alerts [[rowA], [rowB]] cfg2 =
      Except.ok [⟨"a", 1, "Low"⟩, ⟨"b", 1, "Low"⟩] ∧
    (⟨"a", 2, "Low"⟩ : ScoredAlert) ≠ ⟨"a", 1, "Low"⟩ := by
  refine ⟨?_, ?_, ?_⟩ <;>
    norm_num [process_alerts, process_chunk, precompute_alert_frequency, parseTimestamps,
      readCounts, mkParsed, frequency_dict, time_window_start, calculate_risk_score,
      alert_type_score, severity_score, blacklist_weight, frequency_flag, role_score,
      dictGet, classify_priority, rowA, rowB, cfg2, ScoredAlert.mk.injEq]

/-- C3: two alerts from the same source and target 1 minute apart, with a
10-minute window, each get `precomputed_frequency = 1` from the source — the
`frequency_dict` groups rows by exact equality of
`(target_ip, time_window_start)`, so only rows with identical timestamps ever
count together — whereas the claim demands a trailing-window count of 2 for
both (and even the spec's own §4.1 trailing-window definition
`recent_count_spec` gives 1 for the earlier alert and 2 for the later). -/
theorem c3_window_count_is_exact_match_only :
    (precompute_alert_frequency [row1, row2] cfg2).map
      (fun l => l.map (fun p => p.precomputed_frequency)) = Except.ok [1, 1] ∧
    recent_count_spec [("S", 0), ("S", 60)] ("S", 0) 600 = 1 ∧
    recent_count_spec [("S", 0), ("S", 60)] ("S", 60) 600 = 2 := by
  refine ⟨?_, ?_, ?_⟩ <;>
    norm_num [precompute_alert_frequency, parseTimestamps, readCounts, mkParsed,
      frequency_dict, time_window_start, recent_count_spec, row1, row2, rowA, cfg2,
      Except.map, List.filter]

/-- C4 (counterexample): a chunk holding one row with an unparseable timestamp
and one valid row does not yield a successful run that scores the valid row —
`pd.to_datetime` raises, the handler calls `exit(1)`, and the whole run aborts
with no scored output and no diagnostics list, refuting the claim that the
error stays record-scoped. -/
theorem c4_bad_timestamp_aborts_whole_run :
    process_alerts [[badRow, rowB]] cfg2 = Except.error 1 := by
  norm_num [process_alerts, process_chunk, precompute_alert_frequency, parseTimestamps,
    badRow, rowA]

/-- C5: the priority classifier is total on the rationals with exact
boundaries: strictly above 15 is High, above 8 and at most 15 is Medium, at
most 8 is Low; 15 is Medium, 15.0001 is High, 8 is Low, 8.0001 is Medium. -/
theorem c5_classify_priority_boundaries :
    ∀ s : ℚ, (15 < s → classify_priority s = "High") ∧
      (8 < s → s ≤ 15 → classify_priority s = "Medium") ∧
      (s ≤ 8 → classify_priority s = "Low") ∧
      classify_priority 15 = "Medium" ∧
      classify_priority (15.0001 : ℚ) = "High" ∧
      classify_priority 8 = "Low" ∧
      classify_priority (8.0001 : ℚ) = "Medium" := by
  intro s
  refine ⟨?_, ?_, ?_, by norm_num [classify_priority], by norm_num [classify_priority],
    by norm_num [classify_priority], by norm_num [classify_priority]⟩
  · intro h
    unfold classify_priority
    rw [if_pos h]
  · intro h1 h2
    unfold classify_priority
    rw [if_neg (not_lt.mpr h2), if_pos h1]
  · intro h
    unfold classify_priority
    rw [if_neg (not_lt.mpr (le_trans h (by norm_num))), if_neg (not_lt.mpr h)]

/-- Witness for C5 at the concrete scores 16, 10 and 5. -/
theorem c5_classify_priority_boundaries_witness :
    classify_priority 16 = "High" ∧ classify_priority 10 = "Medium" ∧
      classify_priority 5 = "Low" :=
  ⟨(c5_classify_priority_boundaries 16).1 (by norm_num),
   (c5_classify_priority_boundaries 10).2.1 (by norm_num) (by norm_num),
   (c5_classify_priority_boundaries 5).2.2.1 (by norm_num)⟩

/-- C6: when the precomputed frequency is strictly below the configured
threshold count, the frequency term of the risk score is exactly 0: the score
equals the sum of the remaining four terms. -/
theorem c6_below_threshold_frequency_term_zero (alert : ParsedAlert)
    (config : RiskConfig)
    (h : alert.precomputed_frequency < config.frequency_threshold.count) :
    frequency_flag alert config = 0 ∧
    calculate_risk_score alert config =
      alert_type_score alert config + severity_score alert config +
        blacklist_weight alert config + role_score alert config := by
  have hf : frequency_flag alert config = 0 := by
    unfold frequency_flag
    rw [if_neg (not_le.mpr h)]
  refine ⟨hf, ?_⟩
  unfold calculate_risk_score
  rw [hf]
  ring

/-- Witness for C6 at the scenario alert: frequency 1 is below threshold 2. -/
theorem c6_below_threshold_witness :
    scenAlert.precomputed_frequency < scenConfig.frequency_threshold.count ∧
    (frequency_flag scenAlert scenConfig = 0 ∧
      calculate_risk_score scenAlert scenConfig =
        alert_type_score scenAlert scenConfig + severity_score scenAlert scenConfig +
          blacklist_weight scenAlert scenConfig + role_score scenAlert scenConfig) :=
  ⟨by norm_num [scenAlert, scenConfig],
   c6_below_threshold_frequency_term_zero scenAlert scenConfig
     (by norm_num [scenAlert, scenConfig])⟩

/-- C7: for any alert whose source ip is blacklisted and any non-blacklisted
replacement ip, the risk score of the alert exceeds the score of the otherwise
identical alert carrying the replacement ip by exactly 10, whatever the config
says — the penalty is the literal constant 10 in the source, not a config
value. -/
theorem c7_blacklist_penalty_exactly_ten (alert : ParsedAlert)
    (config : RiskConfig) (ip : String)
    (hin : alert.source_ip ∈ config.ip_blacklist)
    (hout : ip ∉ config.ip_blacklist) :
    calculate_risk_score alert config =
      calculate_risk_score { alert with source_ip := ip } config + 10 := by
  unfold calculate_risk_score alert_type_score severity_score blacklist_weight
    frequency_flag role_score
  simp only []
  rw [if_pos hin, if_neg hout]
  ring

/-- Witness for C7: the scenario alert's ip 1.2.3.4 is blacklisted and 9.9.9.9
is not. -/
theorem c7_blacklist_penalty_witness :
    scenAlert.source_ip ∈ scenConfig.ip_blacklist ∧
    "9.9.9.9" ∉ scenConfig.ip_blacklist ∧
    calculate_risk_score scenAlert scenConfig =
      calculate_risk_score { scenAlert with source_ip := "9.9.9.9" } scenConfig + 10 :=
  ⟨by simp [scenAlert, scenConfig], by simp [scenConfig],
   c7_blacklist_penalty_exactly_ten scenAlert scenConfig "9.9.9.9"
     (by simp [scenAlert, scenConfig]) (by simp [scenConfig])⟩

/-- C8 (counterexample): with `severity_weight = -1` — a config the schema
does not forbid, since it only requires the weights to be numeric — raising
the severity from 0 to 1 strictly lowers the risk score, refuting
unconditional monotonicity in severity. -/
theorem c8_not_monotone_for_negative_weight :
    (0 : ℚ) ≤ 1 ∧
    calculate_risk_score { scenAlert with severity := 1 } cfgNeg <
      calculate_risk_score { scenAlert with severity := 0 } cfgNeg := by
  refine ⟨by norm_num, ?_⟩
  norm_num [calculate_risk_score, alert_type_score, severity_score, blacklist_weight,
    frequency_flag, role_score, dictGet, scenAlert, cfgNeg, cfg2]

/-- C8 (amended): the risk score is monotonically non-decreasing in severity,
all other alert fields, the precomputed frequency and the config held fixed,
provided `severity_weight` is non-negative. -/
theorem c8_monotone_in_severity_for_nonneg_weight (a : ParsedAlert)
    (config : RiskConfig) (s1 s2 : ℚ) (hw : 0 ≤ config.severity_weight)
    (hs : s1 ≤ s2) :
    calculate_risk_score { a with severity := s1 } config ≤
      calculate_risk_score { a with severity := s2 } config := by
  unfold calculate_risk_score alert_type_score severity_score blacklist_weight
    frequency_flag role_score
  simp only []
  have hm : s1 * config.severity_weight ≤ s2 * config.severity_weight :=
    mul_le_mul_of_nonneg_right hs hw
  gcongr

/-- Witness for C8 (amended) at the scenario alert with severities 2 ≤ 5. -/
theorem c8_monotone_witness :
    (0 : ℚ) ≤ scenConfig.severity_weight ∧ (2 : ℚ) ≤ 5 ∧
    calculate_risk_score { scenAlert with severity := 2 } scenConfig ≤
      calculate_risk_score { scenAlert with severity := 5 } scenConfig :=
  ⟨by norm_num [scenConfig], by norm_num,
   c8_monotone_in_severity_for_nonneg_weight scenAlert scenConfig 2 5
     (by norm_num [scenConfig]) (by norm_num)⟩

/-- Timestamp parsing keeps the rows: the raw components of a successful parse
are the input rows, in order. -/
lemma parseTimestamps_raw {df : List RawAlert} {l : List (RawAlert × ℤ)}
    (h : parseTimestamps df = some l) : l.map Prod.fst = df := by
  induction df generalizing l with
  | nil =>
    simp only [parseTimestamps, Option.some.injEq] at h
    simp [← h]
  | cons r rs ih =>
    simp only [parseTimestamps] at h
    cases hr : r.timestamp with
    | none => rw [hr] at h; simp at h
    | some t =>
      rw [hr] at h
      cases hrec : parseTimestamps rs with
      | none => rw [hrec] at h; simp at h
      | some l2 =>
        rw [hrec] at h
        simp only [Option.some.injEq] at h
        subst h
        simp [ih hrec]

/-- Reading the `alert_count` column keeps the rows, in order. -/
lemma readCounts_raw {l : List (RawAlert × ℤ)} {rows : List (RawAlert × ℤ × ℚ)}
    (h : readCounts l = some rows) : rows.map Prod.fst = l.map Prod.fst := by
  induction l generalizing rows with
  | nil =>
    simp only [readCounts, Option.some.injEq] at h
    simp [← h]
  | cons p ps ih =>
    simp only [readCounts] at h
    cases hp : p.1.alert_count with
    | none => rw [hp] at h; simp at h
    | some c =>
      rw [hp] at h
      cases hrec : readCounts ps with
      | none => rw [hrec] at h; simp at h
      | some l2 =>
        rw [hrec] at h
        simp only [Option.some.injEq] at h
        subst h
        simp [ih hrec]

/-- The frequency pre-pass keeps the alert ids, in order. -/
lemma precompute_ids {df : List RawAlert} {config : RiskConfig}
    {parsed : List ParsedAlert}
    (h : precompute_alert_frequency df config = Except.ok parsed) :
    parsed.map (fun p => p.alert_id) = df.map (fun r => r.alert_id) := by
  unfold precompute_alert_frequency at h
  split at h
  · simp at h
  rename_i withTs hts
  split at h
  · simp at h
  rename_i rows hrc
  simp only [Except.ok.injEq] at h
  subst h
  have h1 := readCounts_raw hrc
  have h2 := parseTimestamps_raw hts
  calc ((rows.map (mkParsed config rows)).map fun p => p.alert_id)
      = rows.map (fun q => q.1.alert_id) := by
        simp [List.map_map, mkParsed, Function.comp]
    _ = (rows.map Prod.fst).map (fun r => r.alert_id) := by
        simp [List.map_map, Function.comp]
    _ = (withTs.map Prod.fst).map (fun r => r.alert_id) := by rw [h1]
    _ = df.map (fun r => r.alert_id) := by rw [h2]

/-- A successfully processed chunk keeps the alert ids, in order. -/
lemma process_chunk_ids {c : List RawAlert} {config : RiskConfig}
    {r : List ScoredAlert} (h : process_chunk c config = Except.ok r) :
    r.map (fun s => s.alert_id) = c.map (fun a => a.alert_id) := by
  unfold process_chunk at h
  cases hp : precompute_alert_frequency c config with
  | error e => rw [hp] at h; simp at h
  | ok alert_df =>
    rw [hp] at h
    simp only [Except.ok.injEq] at h
    subst h
    rw [List.map_map]
    exact precompute_ids hp

/-- Every failure of the frequency pre-pass carries exit status 1. -/
lemma precompute_error_one {df : List RawAlert} {config : RiskConfig} {e : ℤ}
    (h : precompute_alert_frequency df config = Except.error e) : e = 1 := by
  unfold precompute_alert_frequency at h
  split at h
  · simpa using h.symm
  split at h
  · simpa using h.symm
  simp at h

/-- Every failure of a chunk carries exit status 1. -/
lemma process_chunk_error_one {c : List RawAlert} {config : RiskConfig} {e : ℤ}
    (h : process_chunk c config = Except.error e) : e = 1 := by
  unfold process_chunk at h
  cases hp : precompute_alert_frequency c config with
  | error e2 =>
    rw [hp] at h
    simp only [Except.error.injEq] at h
    exact h ▸ precompute_error_one hp
  | ok alert_df => rw [hp] at h; simp at h

/-- C9: whenever the run succeeds, the merged output lists exactly the input
alert ids, in the original input order (the source dispatches chunks in order
through the blocking `pool.apply` and concatenates chunk results in dispatch
order, each chunk scored row by row in order). -/
theorem c9_output_preserves_input_order (chunks : List (List RawAlert))
    (config : RiskConfig) (res : List ScoredAlert)
    (h : process_alerts chunks config = Except.ok res) :
    res.map (fun s => s.alert_id) = chunks.flatten.map (fun r => r.alert_id) := by
  induction chunks generalizing res with
  | nil =>
    simp only [process_alerts, Except.ok.injEq] at h
    subst h
    simp
  | cons c rest ih =>
    simp only [process_alerts] at h
    cases hc : process_chunk c config with
    | error e => rw [hc] at h; simp at h
    | ok r =>
      rw [hc] at h
      cases hrest : process_alerts rest config with
      | error e => rw [hrest] at h; simp at h
      | ok rs =>
        rw [hrest] at h
        simp only [Except.ok.injEq] at h
        subst h
        rw [List.flatten_cons, List.map_append, List.map_append,
          process_chunk_ids hc, ih rs hrest]

/-- Witness for C9 on the one-chunk dataset `[rowA, rowB]`. -/
theorem c9_output_order_witness :
    (List.map (fun s => s.alert_id)
        [(⟨"a", 2, "Low"⟩ : ScoredAlert), ⟨"b", 2, "Low"⟩]) =
      ([[rowA, rowB]].flatten).map (fun r => r.alert_id) :=
  c9_output_preserves_input_order [[rowA, rowB]] cfg2
    [⟨"a", 2, "Low"⟩, ⟨"b", 2, "Low"⟩]
    (by norm_num [process_alerts, process_chunk, precompute_alert_frequency,
      parseTimestamps, readCounts, mkParsed, frequency_dict, time_window_start,
      calculate_risk_score, alert_type_score, severity_score, blacklist_weight,
      frequency_flag, role_score, dictGet, classify_priority, rowA, rowB, cfg2])

/-- Timestamp parsing of a frame containing one unparseable row fails
outright, as `pd.to_datetime` raises over the whole column. -/
lemma parseTimestamps_none_of_bad {df : List RawAlert} {r : RawAlert}
    (hm : r ∈ df) (hr : r.timestamp = none) : parseTimestamps df = none := by
  induction df with
  | nil => simp at hm
  | cons x xs ih =>
    rcases List.mem_cons.mp hm with h | h
    · subst h
      simp only [parseTimestamps, hr]
    · have hx := ih h
      cases ht : x.timestamp <;> simp [parseTimestamps, ht, hx]

/-- A chunk containing a row with an unparseable timestamp aborts with exit
status 1. -/
lemma process_chunk_bad_ts {c : List RawAlert} {r : RawAlert}
    {config : RiskConfig} (hm : r ∈ c) (hr : r.timestamp = none) :
    process_chunk c config = Except.error 1 := by
  unfold process_chunk
  simp only [precompute_alert_frequency, parseTimestamps_none_of_bad hm hr]

/-- C4 (amended): a record with an unparseable timestamp does not stay
record-scoped — as soon as any chunk of the run holds such a record the whole
run aborts with exit status 1, producing no scored output and no diagnostics
(the `except` handler around `pd.to_datetime` prints and calls `exit(1)`). -/
theorem c4_record_error_escalates_to_whole_run (chunks : List (List RawAlert))
    (config : RiskConfig) (h : ∃ r ∈ chunks.flatten, r.timestamp = none) :
    process_alerts chunks config = Except.error 1 := by
  induction chunks with
  | nil => obtain ⟨r, hm, _⟩ := h; simp at hm
  | cons c rest ih =>
    obtain ⟨r, hm, hr⟩ := h
    rw [List.flatten_cons, List.mem_append] at hm
    rcases hm with hm | hm
    · unfold process_alerts
      simp only [process_chunk_bad_ts hm hr]
    · have hrest := ih ⟨r, hm, hr⟩
      unfold process_alerts
      cases hc : process_chunk c config with
      | error e =>
        simp only [hc, process_chunk_error_one hc]
      | ok rr =>
        simp only [hc, hrest]

/-- Witness for C4 (amended): the chunk `[badRow, rowB]` holds the unparseable
`badRow`, and the run aborts. -/
theorem c4_record_error_witness :
    (∃ r ∈ [[badRow, rowB]].flatten, r.timestamp = none) ∧
    process_alerts [[badRow, rowB]] cfg2 = Except.error 1 :=
  ⟨⟨badRow, by simp, rfl⟩,
   c4_record_error_escalates_to_whole_run [[badRow, rowB]] cfg2
     ⟨badRow, by simp, rfl⟩⟩

/-- When every row's timestamp parses, `pd.to_datetime` succeeds. -/
lemma parseTimestamps_total {df : List RawAlert}
    (h : ∀ r ∈ df, (r.timestamp).isSome = true) :
    ∃ l, parseTimestamps df = some l := by
  induction df with
  | nil => exact ⟨[], rfl⟩
  | cons r rs ih =>
    obtain ⟨l, hl⟩ := ih (fun x hx => h x (List.mem_cons_of_mem r hx))
    obtain ⟨t, ht⟩ := Option.isSome_iff_exists.mp (h r (List.mem_cons_self r rs))
    exact ⟨(r, t) :: l, by simp only [parseTimestamps, ht, hl]⟩

/-- The frequency loop raises a KeyError as soon as one of its rows lacks the
`alert_count` column. -/
lemma readCounts_none_of_bad {l : List (RawAlert × ℤ)} {p : RawAlert × ℤ}
    (hm : p ∈ l) (hp : p.1.alert_count = none) : readCounts l = none := by
  induction l with
  | nil => simp at hm
  | cons x xs ih =>
    rcases List.mem_cons.mp hm with h | h
    · subst h
      simp only [readCounts, hp]
    · have hx := ih h
      cases hc : x.1.alert_count <;> simp [readCounts, hc, hx]

/-- A chunk whose timestamps all parse but that holds a row without the
`alert_count` column aborts with exit status 1. -/
lemma process_chunk_no_count {c : List RawAlert} {r : RawAlert}
    {config : RiskConfig} (hm : r ∈ c)
    (hts : ∀ x ∈ c, (x.timestamp).isSome = true)
    (hr : r.alert_count = none) :
    process_chunk c config = Except.error 1 := by
  obtain ⟨l, hl⟩ := parseTimestamps_total hts
  have hmap := parseTimestamps_raw hl
  have hrl : r ∈ l.map Prod.fst := by rw [hmap]; exact hm
  obtain ⟨p, hpl, hpr⟩ := List.mem_map.mp hrl
  have hrc : readCounts l = none :=
    readCounts_none_of_bad hpl (by rw [hpr]; exact hr)
  unfold process_chunk
  simp only [precompute_alert_frequency, hl, hrc]

/-- C10: a dataset whose rows all parse but that lacks the optional
`alert_count` column does not get a default of 0 — the frequency pre-pass
reads `row['alert_count']`, the KeyError handler calls `exit(1)`, and the
whole run aborts with status 1 and no scored output. -/
theorem c10_missing_alert_count_aborts_run (chunks : List (List RawAlert))
    (config : RiskConfig)
    (hts : ∀ r ∈ chunks.flatten, (r.timestamp).isSome = true)
    (hnc : ∀ r ∈ chunks.flatten, r.alert_count = none)
    (hne : chunks.flatten ≠ []) :
    process_alerts chunks config = Except.error 1 := by
  induction chunks with
  | nil => simp at hne
  | cons c rest ih =>
    rcases c with _ | ⟨r, c2⟩
    · have h1 : (([] : List RawAlert) :: rest).flatten = rest.flatten := by simp
      rw [h1] at hts hnc hne
      have hrest := ih hts hnc hne
      unfold process_alerts
      simp only [show process_chunk ([] : List RawAlert) config = Except.ok []
        from rfl, hrest]
    · have hmem : r ∈ (r :: c2) := List.mem_cons_self r c2
      have hsub : ∀ x ∈ (r :: c2), x ∈ ((r :: c2) :: rest).flatten := by
        intro x hx
        rw [List.flatten_cons]
        exact List.mem_append_left _ hx
      have hchunk : process_chunk (r :: c2) config = Except.error 1 :=
        process_chunk_no_count hmem (fun x hx => hts x (hsub x hx))
          (hnc r (hsub r hmem))
      unfold process_alerts
      simp only [hchunk]

/-- Witness for C10 on the one-row dataset whose `alert_count` column is
absent. -/
theorem c10_missing_alert_count_witness :
    ([[noCountRow]].flatten ≠ []) ∧
    process_alerts [[noCountRow]] cfg2 = Except.error 1 :=
  ⟨by simp,
   c10_missing_alert_count_aborts_run [[noCountRow]] cfg2
     (by intro r hr; simp at hr; subst hr; rfl)
     (by intro r hr; simp at hr; subst hr; rfl)
     (by simp)⟩
